import Mathlib

/-!
Verification of the signal-and-filter pipeline of the 0-1 DTE options tool
(`src/options_tool.py`) and of the price poller (`src/nasdaq.py`).

The Python runtime's floating-point values are embedded as `FVal`: either an
exact rational or `nan`.  Every comparison of a float against a threshold in
the source is an IEEE comparison, which yields `False` whenever either side is
not an ordinary number (NaN, and in the one place an infinity can arise -
division of a positive numerator by zero - the comparison `inf <= c` is also
`False`); `FVal` therefore folds the non-ordinary outcomes into `nan`, which
compares `false` against every threshold, exactly matching the observable
branch taken by the source.
-/

namespace OptionsTool

/-- A Python float as observed by the tool's comparisons: an exact rational
value or a non-ordinary value (`nan`). -/
inductive FVal where
  | nan : FVal
  | val : ℚ → FVal
deriving DecidableEq, Repr

/-- IEEE `x < c`: false when `x` is NaN. -/
def FVal.lt : FVal → ℚ → Bool
  | .nan, _ => false
  | .val x, c => decide (x < c)

/-- IEEE `x > c`: false when `x` is NaN. -/
def FVal.gt : FVal → ℚ → Bool
  | .nan, _ => false
  | .val x, c => decide (c < x)

/-- IEEE `x <= c`: false when `x` is NaN (or `+inf`, folded into `nan`). -/
def FVal.le : FVal → ℚ → Bool
  | .nan, _ => false
  | .val x, c => decide (x ≤ c)

/-- Python `abs` on a float; NaN propagates. -/
def FVal.abs : FVal → FVal
  | .nan => .nan
  | .val x => .val |x|

/-! ### Module-level constants of `options_tool.py` (lines 20-32) -/

def TECH_TICKERS : List String := ["NVDA", "AMD", "AMZN", "META", "TSLA"]

def RSI_PERIOD : ℕ := 14

def RSI_OVERBOUGHT : ℚ := 70

def RSI_OVERSOLD : ℚ := 30

/-- `BREAKOUT_THRESHOLD = 0.5` (% change in price to consider breakout). -/
def BREAKOUT_THRESHOLD : ℚ := 1/2

def MIN_VOLUME : ℕ := 100

def MIN_OPEN_INTEREST : ℕ := 100

/-- `MAX_MONEYNESS = 0.1`. -/
def MAX_MONEYNESS : ℚ := 1/10

/-- `MIN_IV = 0.5`. -/
def MIN_IV : ℚ := 1/2

/-! ### Data model -/

/-- One row of an options-chain DataFrame, with the columns the tool reads.
Per the data model, volume and open interest are non-negative integers and
strike / implied volatility are reals (embedded as rationals). -/
structure OptionContract where
  contractSymbol : String
  type : String
  strike : ℚ
  expirationDate : ℤ
  lastPrice : ℚ
  bid : ℚ
  ask : ℚ
  volume : ℕ
  openInterest : ℕ
  impliedVolatility : ℚ
deriving DecidableEq, Repr

/-- The four filtering thresholds.  The source keeps them as module globals;
they are gathered into one record so that threshold variation can be stated. -/
structure FilterThresholds where
  min_volume : ℕ
  min_open_interest : ℕ
  min_iv : ℚ
  max_moneyness : ℚ
deriving DecidableEq, Repr

/-- The concrete global thresholds of `options_tool.py`. -/
def defaultThresholds : FilterThresholds :=
  { min_volume := MIN_VOLUME
    min_open_interest := MIN_OPEN_INTEREST
    min_iv := MIN_IV
    max_moneyness := MAX_MONEYNESS }

/-! ### Option Filter (`filter_options`, lines 66-78) -/

/-- The float expression `abs(chain_df.strike - price) / price`.  When
`price = 0` the IEEE quotient is `+inf` (positive numerator) or NaN (zero
numerator); both compare `false` under `<=`, so both are folded into `nan`. -/
def moneyness (strike price : ℚ) : FVal :=
  if price = 0 then .nan else .val (|strike - price| / price)

/-- The row predicate of the boolean mask built at lines 72-77, in the
source's order: volume, open interest, implied volatility, moneyness. -/
def keepsContract (t : FilterThresholds) (price : ℚ) (c : OptionContract) : Bool :=
  decide (t.min_volume ≤ c.volume) &&
  decide (t.min_open_interest ≤ c.openInterest) &&
  decide (t.min_iv ≤ c.impliedVolatility) &&
  (moneyness c.strike price).le t.max_moneyness

/-- `filter_options(chain_df, price)`: empty input is returned as is;
otherwise the rows of a copy are masked (the copy at line 69 means the
caller's frame is untouched, so the function is plain row filtering). -/
def filter_options (t : FilterThresholds) (chain : List OptionContract) (price : ℚ) :
    List OptionContract :=
  if chain.isEmpty then chain
  else chain.filter (keepsContract t price)

/-! ### Indicator Engine and Signal Classifier (`detect_signals`, lines 81-121) -/

/-- The intraday DataFrame as `detect_signals` sees it: its `Close` column,
plus the `rsi` and `returns` columns the function itself writes (absent,
`none`, until the first call writes them). -/
structure DataFrame where
  close : List ℚ
  rsi : Option (List FVal)
  returns : Option (List FVal)
deriving DecidableEq, Repr

/-- Consecutive price differences: `deltas close` has one entry per adjacent
pair, `close[i+1] - close[i]`. -/
def deltas (close : List ℚ) : List ℚ :=
  List.zipWith (fun a b => b - a) close close.tail

/-- Modelled from the spec: average of the positive deltas of one trailing
window of length `RSI_PERIOD`, as performed inside the external
`ta.momentum.RSIIndicator` library, which is not part of this repository. -/
def avgGain (window : List ℚ) : ℚ :=
  (window.map fun d => max d 0).sum / RSI_PERIOD

/-- Modelled from the spec: average magnitude of the negative deltas of one
trailing window of length `RSI_PERIOD` (external `ta` library). -/
def avgLoss (window : List ℚ) : ℚ :=
  (window.map fun d => max (-d) 0).sum / RSI_PERIOD

/-- Modelled from the spec: `RS = avg_gain / avg_loss` (taken as `+∞` when
`avg_loss = 0`, in which case `RSI = 100`), `RSI = 100 - 100/(1+RS)` - the
RSI value of one window, as computed by the external `ta` library. -/
def rsiFromWindow (window : List ℚ) : ℚ :=
  if avgLoss window = 0 then 100
  else 100 - 100 / (1 + avgGain window / avgLoss window)

/-- The trailing window of `RSI_PERIOD` deltas ending just before index `i`
of the price series: delta indices `i - RSI_PERIOD` to `i - 1`. -/
def windowAt (close : List ℚ) (i : ℕ) : List ℚ :=
  ((deltas close).take i).drop (i - RSI_PERIOD)

/-- Modelled from the spec: the series produced by
`ta.momentum.RSIIndicator(close, window=RSI_PERIOD).rsi()` (external library,
absent from this repository).  Undefined (NaN) at the first `RSI_PERIOD`
indices - a series shorter than `RSI_PERIOD + 1` points has no defined RSI -
and elsewhere the RSI of the trailing window. -/
def rsiSeries (close : List ℚ) : List FVal :=
  (List.range close.length).map fun i =>
    if i < RSI_PERIOD then .nan else .val (rsiFromWindow (windowAt close i))

/-- `close.pct_change() * 100`: NaN at index 0, elsewhere the percent change
from the previous point.  (A zero previous price would give an IEEE infinity;
it is folded into `nan` - prices are positive in the data model, and the two
behave identically under every comparison the tool performs.) -/
def pctChange100 : List ℚ → List FVal
  | [] => []
  | _ :: [] => [.nan]
  | a :: b :: rest =>
      .nan :: pctChange100Go a (b :: rest)
where
  pctChange100Go : ℚ → List ℚ → List FVal
  | _, [] => []
  | prev, x :: xs =>
      (if prev = 0 then .nan else .val ((x - prev) / prev * 100)) ::
        pctChange100Go x xs

/-- The `rsi_signal` conditional expression (lines 100-104). -/
def rsi_signal (rsi_value : FVal) : String :=
  if rsi_value.lt RSI_OVERSOLD then "buy"
  else if rsi_value.gt RSI_OVERBOUGHT then "sell"
  else "neutral"

/-- The `breakout_signal` conditional expression (lines 105-107). -/
def breakout_signal (return_percent : FVal) : String :=
  if (FVal.abs return_percent).gt BREAKOUT_THRESHOLD then "breakout" else "none"

/-- The dict returned by `detect_signals`. -/
structure SignalResult where
  price : ℚ
  rsi_value : FVal
  return_percent : FVal
  rsi_signal : String
  breakout_signal : String
deriving DecidableEq, Repr

/-- `detect_signals(df)`.  Python mutation of the caller's frame is embedded
by state passing: the result pairs the post-state of `df` with the returned
dict.  `none` is the raise on an empty frame (`.iloc[-1]` on no rows); the
source assigns the `rsi` and `returns` columns twice (lines 92-93 and
112-113) with identical values, so the post-state sets them once. -/
def detect_signals (df : DataFrame) : Option (DataFrame × SignalResult) :=
  match df.close.getLast? with
  | none => none
  | some price =>
    let rsiS := rsiSeries df.close
    let retS := pctChange100 df.close
    let rsi_value := rsiS.getLast?.getD .nan
    let return_percent := retS.getLast?.getD .nan
    some ({ df with rsi := some rsiS, returns := some retS },
      { price := price
        rsi_value := rsi_value
        return_percent := return_percent
        rsi_signal := rsi_signal rsi_value
        breakout_signal := breakout_signal return_percent })

/-! ### Options-chain selection (`fetch_options_chain`, lines 48-63)

Dates are embedded as integer day numbers, so `(d - today).days` is plain
integer subtraction. -/

/-- The list comprehension at line 52: keep an expiration `exp` when
`abs((exp - today).days) <= 1`. -/
def valid_exps (today : ℤ) (exps : List ℤ) : List ℤ :=
  exps.filter fun e => decide ((e - today).natAbs ≤ 1)

/-- `fetch_options_chain` after retrieval: `chainOf e` stands for the rows of
`tk.option_chain(e)` (calls then puts, concatenated); the retained
expirations' rows are concatenated in order.  The empty-`chains` branch
(line 63) returns the empty frame, which the concatenation also yields. -/
def fetch_options_chain (today : ℤ) (exps : List ℤ)
    (chainOf : ℤ → List OptionContract) : List OptionContract :=
  ((valid_exps today exps).map chainOf).flatten

/-! ### Per-ticker scan (`analyze_ticker` lines 135-146,
`run_trading_scan` lines 149-152)

The external collaborators (yfinance downloads) are embedded as an
environment of per-ticker outcomes; `Except.error` is a raised exception,
whose message the `except` clause at line 145 prints. -/

/-- Outcomes of the external data-provider calls for each ticker. -/
structure Env where
  intraday : String → Except String DataFrame
  chain : String → Except String (List OptionContract)

/-- One printed console line, kept structured: the `:.2f` numeric layout,
timestamps and column widths are presentation and are not modelled. -/
inductive ReportLine where
  | scanHeader : ReportLine
  | errorProcessing (ticker msg : String) : ReportLine
  | noData (ticker : String) : ReportLine
  | tickerSummary (ticker : String) (signals : SignalResult) : ReportLine
  | filteredHeader : ReportLine
  | contractRow (c : OptionContract) : ReportLine
  | noOptionsMatch : ReportLine
deriving DecidableEq, Repr

/-- `alert_user` (lines 124-132) as the block of lines it prints for one
ticker: the summary line, then either the filtered-options table or the
`No options match filter criteria.` line. -/
def alert_user (ticker : String) (signals : SignalResult)
    (opts : List OptionContract) : List ReportLine :=
  ReportLine.tickerSummary ticker signals ::
    (if opts.isEmpty then [ReportLine.noOptionsMatch]
     else ReportLine.filteredHeader :: opts.map ReportLine.contractRow)

/-- `analyze_ticker(ticker)`: the whole pipeline runs inside one
`try/except`, so any raised exception becomes the single
`Error processing ...` line; an empty frame prints `No data` and returns.
`detect_signals` returning `none` (the raise on an empty frame) is
unreachable behind the emptiness check but is routed to the same `except`
clause. -/
def analyze_ticker (env : Env) (ticker : String) : List ReportLine :=
  match env.intraday ticker with
  | .error e => [ReportLine.errorProcessing ticker e]
  | .ok df =>
    if df.close.isEmpty then [ReportLine.noData ticker]
    else
      match detect_signals df with
      | none => [ReportLine.errorProcessing ticker "empty frame"]
      | some (_, signals) =>
        match env.chain ticker with
        | .error e => [ReportLine.errorProcessing ticker e]
        | .ok opts =>
            alert_user ticker signals
              (filter_options defaultThresholds opts signals.price)

/-- `run_trading_scan()`: a header line, then each ticker of the fixed list
processed in order, each contributing its own block of lines. -/
def run_trading_scan (env : Env) (tickers : List String) : List ReportLine :=
  ReportLine.scanHeader :: (tickers.map (analyze_ticker env)).flatten

end OptionsTool

namespace Nasdaq

/-- `get_latest_prices(tickers)` of `src/nasdaq.py` (lines 30-42): each
symbol is fetched inside its own `try/except`; a raise is logged and the
symbol mapped to `None`.  The dict is embedded as the association list in
insertion order; `fetch` stands for `yf.Ticker(symbol).fast_info["last_price"]`. -/
def get_latest_prices (fetch : String → Except String ℚ) (tickers : List String) :
    List (String × Option ℚ) :=
  tickers.map fun s =>
    (s, match fetch s with
        | .ok p => some p
        | .error _ => none)

end Nasdaq

namespace OptionsTool

/-! ### Auxiliary definitions for the stated properties -/

/-- The second configuration tightens exactly one threshold of the first:
it raises `min_volume`, raises `min_open_interest`, raises `min_iv`, or
lowers `max_moneyness`, leaving the other three unchanged. -/
def tightensOneThreshold (t1 t2 : FilterThresholds) : Prop :=
  (t1.min_volume ≤ t2.min_volume ∧ t1.min_open_interest = t2.min_open_interest ∧
    t1.min_iv = t2.min_iv ∧ t1.max_moneyness = t2.max_moneyness) ∨
  (t1.min_volume = t2.min_volume ∧ t1.min_open_interest ≤ t2.min_open_interest ∧
    t1.min_iv = t2.min_iv ∧ t1.max_moneyness = t2.max_moneyness) ∨
  (t1.min_volume = t2.min_volume ∧ t1.min_open_interest = t2.min_open_interest ∧
    t1.min_iv ≤ t2.min_iv ∧ t1.max_moneyness = t2.max_moneyness) ∨
  (t1.min_volume = t2.min_volume ∧ t1.min_open_interest = t2.min_open_interest ∧
    t1.min_iv = t2.min_iv ∧ t2.max_moneyness ≤ t1.max_moneyness)

/-- A liquid near-the-money contract used as concrete input: volume 150,
open interest 200, implied volatility 0.6, strike 100. -/
def sampleContract : OptionContract :=
  { contractSymbol := "NVDA250101C00100000"
    type := "call"
    strike := 100
    expirationDate := 0
    lastPrice := 5
    bid := 24/5
    ask := 26/5
    volume := 150
    openInterest := 200
    impliedVolatility := 3/5 }

/-- A strictly increasing 15-point price series (`RSI_PERIOD + 1` points). -/
def close15 : List ℚ :=
  [100, 101, 102, 103, 104, 105, 106, 107, 108, 109, 110, 111, 112, 113, 114]

/-- A two-point intraday frame before any signal computation. -/
def freshFrame : DataFrame := { close := [1, 2], rsi := none, returns := none }

/-- The same close prices as `freshFrame` under a differing `rsi` column. -/
def staleFrame : DataFrame := { close := [1, 2], rsi := some [], returns := none }

/-- A provider in which the intraday download for AMD raises. -/
def envFailAMD : Env :=
  { intraday := fun s =>
      if s = "AMD" then .error "connection reset" else .ok freshFrame
    chain := fun _ => .ok [sampleContract] }

/-- A provider in which every intraday download succeeds. -/
def envAllOk : Env :=
  { intraday := fun s =>
      if s = "AMD" then .ok { close := [3, 4], rsi := none, returns := none }
      else .ok freshFrame
    chain := fun _ => .ok [sampleContract] }

/-! ### Helper lemmas -/

theorem FVal.le_mono {v : FVal} {c c' : ℚ} (hcc : c ≤ c') (h : v.le c = true) :
    v.le c' = true := by
  cases v with
  | nan => simp [FVal.le] at h
  | val x =>
    simp only [FVal.le, decide_eq_true_eq] at h ⊢
    exact h.trans hcc

theorem keepsContract_mono {t1 t2 : FilterThresholds} (price : ℚ)
    (ht : tightensOneThreshold t1 t2) (c : OptionContract)
    (h : keepsContract t2 price c = true) : keepsContract t1 price c = true := by
  simp only [keepsContract, Bool.and_eq_true, decide_eq_true_eq] at h ⊢
  obtain ⟨⟨⟨h1, h2⟩, h3⟩, h4⟩ := h
  rcases ht with ⟨a, b, i, m⟩ | ⟨a, b, i, m⟩ | ⟨a, b, i, m⟩ | ⟨a, b, i, m⟩
  · exact ⟨⟨⟨a.trans h1, b ▸ h2⟩, i ▸ h3⟩, m ▸ h4⟩
  · exact ⟨⟨⟨a ▸ h1, b.trans h2⟩, i ▸ h3⟩, m ▸ h4⟩
  · exact ⟨⟨⟨a ▸ h1, b ▸ h2⟩, i.trans h3⟩, m ▸ h4⟩
  · exact ⟨⟨⟨a ▸ h1, b ▸ h2⟩, i ▸ h3⟩, FVal.le_mono m h4⟩

theorem rsiSeries_getLast?_of_ne_nil (close : List ℚ) (hne : close ≠ []) :
    (rsiSeries close).getLast? =
      some (if close.length - 1 < RSI_PERIOD then FVal.nan
        else FVal.val (rsiFromWindow (windowAt close (close.length - 1)))) := by
  obtain ⟨m, hm⟩ : ∃ m, close.length = m + 1 := by
    cases close with
    | nil => exact absurd rfl hne
    | cons a l => exact ⟨l.length, rfl⟩
  rw [rsiSeries, hm, List.range_succ, List.map_append, List.map_singleton,
    List.getLast?_concat]
  simp

theorem avgGain_nonneg (w : List ℚ) : 0 ≤ avgGain w := by
  apply div_nonneg _ (by norm_num [RSI_PERIOD])
  apply List.sum_nonneg
  intro x hx
  obtain ⟨d, _, rfl⟩ := List.mem_map.mp hx
  exact le_max_right d 0

theorem avgLoss_nonneg (w : List ℚ) : 0 ≤ avgLoss w := by
  apply div_nonneg _ (by norm_num [RSI_PERIOD])
  apply List.sum_nonneg
  intro x hx
  obtain ⟨d, _, rfl⟩ := List.mem_map.mp hx
  exact le_max_right (-d) 0

theorem rsiFromWindow_bounds (w : List ℚ) :
    0 ≤ rsiFromWindow w ∧ rsiFromWindow w ≤ 100 := by
  rw [rsiFromWindow]
  split
  · norm_num
  · rename_i hl0
    have hl : 0 < avgLoss w := lt_of_le_of_ne (avgLoss_nonneg w) (Ne.symm hl0)
    have hrs : 0 ≤ avgGain w / avgLoss w := div_nonneg (avgGain_nonneg w) hl.le
    have hq0 : 0 < 100 / (1 + avgGain w / avgLoss w) := by positivity
    have hq1 : 100 / (1 + avgGain w / avgLoss w) ≤ 100 :=
      div_le_self (by norm_num) (by linarith)
    constructor <;> linarith

theorem deltas_pos_of_chain (close : List ℚ) (h : close.Chain' (· < ·)) :
    ∀ d ∈ deltas close, 0 < d := by
  induction close with
  | nil => simp [deltas]
  | cons a tl ih =>
    cases tl with
    | nil => simp [deltas]
    | cons b tl2 =>
      rw [List.chain'_cons] at h
      intro d hd
      rw [deltas, List.tail_cons, List.zipWith_cons_cons] at hd
      rcases List.mem_cons.mp hd with rfl | hd2
      · linarith [h.1]
      · exact ih h.2 d hd2

/-! ### The claims -/

/-- C4: the Signal Classifier uses strict inequalities: `buy` iff
`rsi_value < 30`, `sell` iff `rsi_value > 70`, `neutral` otherwise (so 30
and 70 are neutral); `breakout` iff `|return_percent| > 0.5`, else `none`
(so 0.5 is none). -/
theorem signal_classifier_boundaries (r p : ℚ) :
    (rsi_signal (.val r) = "buy" ↔ r < 30) ∧
    (rsi_signal (.val r) = "sell" ↔ 70 < r) ∧
    (rsi_signal (.val r) = "neutral" ↔ 30 ≤ r ∧ r ≤ 70) ∧
    (breakout_signal (.val p) = "breakout" ↔ 1/2 < |p|) ∧
    (breakout_signal (.val p) = "none" ↔ |p| ≤ 1/2) := by
  simp only [rsi_signal, breakout_signal, FVal.lt, FVal.gt, FVal.abs,
    RSI_OVERSOLD, RSI_OVERBOUGHT, BREAKOUT_THRESHOLD]
  by_cases h1 : r < 30 <;> by_cases h2 : 70 < r <;>
    by_cases h3 : 1/2 < |p| <;>
    simp [h1, h2, h3] <;> first | linarith | (constructor <;> linarith)

/-- C6: `fetch_options_chain` considers exactly the expirations whose date
differs from today by at most 1 calendar day in absolute value (same-day,
next-day, and one-day-past expirations), before any threshold filtering. -/
theorem expiration_window_selection (today : ℤ) (exps : List ℤ)
    (chainOf : ℤ → List OptionContract) :
    (∀ e, e ∈ valid_exps today exps ↔ e ∈ exps ∧ |e - today| ≤ 1) ∧
    (∀ c, c ∈ fetch_options_chain today exps chainOf ↔
      ∃ e, (e ∈ exps ∧ |e - today| ≤ 1) ∧ c ∈ chainOf e) := by
  have habs : ∀ e : ℤ, (e - today).natAbs ≤ 1 ↔ |e - today| ≤ 1 := by
    intro e
    rw [Int.abs_eq_natAbs]
    exact_mod_cast Iff.rfl
  constructor
  · intro e
    rw [valid_exps, List.mem_filter, decide_eq_true_eq, habs]
  · intro c
    simp only [fetch_options_chain, List.mem_flatten, List.mem_map,
      valid_exps, List.mem_filter, decide_eq_true_eq]
    constructor
    · rintro ⟨l, ⟨e, ⟨he, hw⟩, rfl⟩, hc⟩
      exact ⟨e, ⟨he, (habs e).mp hw⟩, hc⟩
    · rintro ⟨e, ⟨he, hw⟩, hc⟩
      exact ⟨chainOf e, ⟨e, ⟨he, (habs e).mpr hw⟩, rfl⟩, hc⟩

/-- C8: for a strictly positive reference price, the Option Filter's output
is a sublist of its input - retained contracts keep their relative order
and no contract is reordered. -/
theorem filter_options_sublist (t : FilterThresholds) (chain : List OptionContract)
    (price : ℚ) (_hp : 0 < price) :
    (filter_options t chain price).Sublist chain := by
  rw [filter_options]
  split
  · exact List.Sublist.refl _
  · exact List.filter_sublist _

/-- Witness for C8 at a concrete contract list and price 100. -/
theorem filter_options_sublist_witness :
    (0 : ℚ) < 100 ∧
      (filter_options defaultThresholds [sampleContract] 100).Sublist [sampleContract] :=
  ⟨by norm_num, filter_options_sublist defaultThresholds [sampleContract] 100 (by norm_num)⟩

/-- C3: for a strictly positive reference price the filter retains exactly
the contracts with `volume ≥ MIN_VOLUME`, `open_interest ≥ MIN_OPEN_INTEREST`,
`implied_volatility ≥ MIN_IV` and
`|strike - reference_price| / reference_price ≤ MAX_MONEYNESS`; empty input
yields empty output. -/
theorem filter_options_characterization (chain : List OptionContract) (price : ℚ)
    (hp : 0 < price) :
    (∀ c, c ∈ filter_options defaultThresholds chain price ↔
      c ∈ chain ∧ MIN_VOLUME ≤ c.volume ∧ MIN_OPEN_INTEREST ≤ c.openInterest ∧
        MIN_IV ≤ c.impliedVolatility ∧
        |c.strike - price| / price ≤ MAX_MONEYNESS) ∧
    filter_options defaultThresholds [] price = [] := by
  refine ⟨fun c => ?_, rfl⟩
  rw [filter_options]
  split
  · rename_i he
    rw [List.isEmpty_iff] at he
    subst he
    simp
  · rw [List.mem_filter, keepsContract, moneyness, if_neg hp.ne']
    simp only [Bool.and_eq_true, decide_eq_true_eq, FVal.le, defaultThresholds]
    tauto

/-- Witness for C3 at a one-contract chain and reference price 100. -/
theorem filter_options_characterization_witness :
    (0 : ℚ) < 100 ∧
      ((∀ c, c ∈ filter_options defaultThresholds [sampleContract] 100 ↔
        c ∈ [sampleContract] ∧ MIN_VOLUME ≤ c.volume ∧
          MIN_OPEN_INTEREST ≤ c.openInterest ∧ MIN_IV ≤ c.impliedVolatility ∧
          |c.strike - 100| / 100 ≤ MAX_MONEYNESS) ∧
      filter_options defaultThresholds [] 100 = []) :=
  ⟨by norm_num, filter_options_characterization [sampleContract] 100 (by norm_num)⟩

/-- C7: tightening exactly one threshold never enlarges the filtered set. -/
theorem filter_options_threshold_monotone (chain : List OptionContract)
    (price : ℚ) (_hp : 0 < price) (t1 t2 : FilterThresholds)
    (ht : tightensOneThreshold t1 t2) :
    (filter_options t2 chain price).length ≤ (filter_options t1 chain price).length := by
  rw [filter_options, filter_options]
  split
  · exact Nat.le_refl _
  · exact (List.monotone_filter_right chain
      (fun c hc => keepsContract_mono price ht c hc)).length_le

/-- Witness for C7: raising `min_volume` from 100 to 200 on a one-contract
chain. -/
theorem filter_options_threshold_monotone_witness :
    ((0 : ℚ) < 100 ∧
      tightensOneThreshold defaultThresholds
        { defaultThresholds with min_volume := 200 }) ∧
    (filter_options { defaultThresholds with min_volume := 200 }
        [sampleContract] 100).length ≤
      (filter_options defaultThresholds [sampleContract] 100).length :=
  ⟨⟨by norm_num, Or.inl ⟨by decide, rfl, rfl, rfl⟩⟩,
    filter_options_threshold_monotone [sampleContract] 100 (by norm_num)
      defaultThresholds { defaultThresholds with min_volume := 200 }
      (Or.inl ⟨by decide, rfl, rfl, rfl⟩)⟩

/-- C1 counterexample: under the negative reference price `-1` the liquid
contract `sampleContract` is RETAINED by the filter (its computed moneyness,
`|100 - (-1)| / (-1) = -101`, is `≤ MAX_MONEYNESS`), refuting "no contract
is retained under a zero or negative reference price". -/
theorem filter_negative_price_retains :
    filter_options defaultThresholds [sampleContract] (-1) = [sampleContract] ∧
    filter_options defaultThresholds [sampleContract] (-1) ≠ [] := by
  have hk : keepsContract defaultThresholds (-1) sampleContract = true := by
    rw [keepsContract, moneyness]
    norm_num [FVal.le, defaultThresholds, sampleContract, MIN_VOLUME,
      MIN_OPEN_INTEREST, MIN_IV, MAX_MONEYNESS]
  have h : filter_options defaultThresholds [sampleContract] (-1) = [sampleContract] := by
    rw [filter_options]
    simp [List.filter_cons, hk]
  exact ⟨h, by rw [h]; exact List.cons_ne_nil _ _⟩

/-- C1 amended: on a zero reference price every contract is rejected (the
IEEE quotient is `inf`/NaN, which fails the `≤` comparison) and the result
is empty with no division fault; on a strictly negative reference price the
moneyness test passes vacuously (the quotient is nonpositive), so exactly
the contracts meeting the volume, open-interest and implied-volatility
thresholds are retained - still with no division fault. -/
theorem filter_options_nonpositive_price (chain : List OptionContract)
    (price : ℚ) (hp : price ≤ 0) :
    (price = 0 → filter_options defaultThresholds chain price = []) ∧
    (price < 0 → filter_options defaultThresholds chain price =
      chain.filter fun c => decide (MIN_VOLUME ≤ c.volume) &&
        decide (MIN_OPEN_INTEREST ≤ c.openInterest) &&
        decide (MIN_IV ≤ c.impliedVolatility)) := by
  constructor
  · intro h0
    subst h0
    rw [filter_options]
    split
    · rename_i he
      exact List.isEmpty_iff.mp he
    · apply List.filter_eq_nil_iff.mpr
      intro c _
      simp [keepsContract, moneyness, FVal.le]
  · intro hneg
    rw [filter_options]
    split
    · rename_i he
      rw [List.isEmpty_iff.mp he]
      rfl
    · apply List.filter_congr
      intro c _
      rw [keepsContract, moneyness, if_neg hneg.ne]
      have hm : |c.strike - price| / price ≤ MAX_MONEYNESS := by
        have h1 : |c.strike - price| / price ≤ 0 :=
          div_nonpos_of_nonneg_of_nonpos (abs_nonneg _) hp
        rw [MAX_MONEYNESS]
        linarith
      simp [FVal.le, defaultThresholds, hm]

/-- Witness for the amended C1 at the reference price `-1`. -/
theorem filter_options_nonpositive_price_witness :
    (-1 : ℚ) ≤ 0 ∧
      (((-1 : ℚ) = 0 → filter_options defaultThresholds [sampleContract] (-1) = []) ∧
      ((-1 : ℚ) < 0 → filter_options defaultThresholds [sampleContract] (-1) =
        [sampleContract].filter fun c => decide (MIN_VOLUME ≤ c.volume) &&
          decide (MIN_OPEN_INTEREST ≤ c.openInterest) &&
          decide (MIN_IV ≤ c.impliedVolatility))) :=
  ⟨by norm_num, filter_options_nonpositive_price [sampleContract] (-1) (by norm_num)⟩

/-- C5 counterexample: `detect_signals` does NOT leave its input frame
unchanged - on the fresh two-point frame it writes the `rsi` and `returns`
columns of the caller's frame, so the post-state differs from the input. -/
theorem detect_signals_mutates_frame :
    (detect_signals freshFrame).map Prod.fst ≠ some freshFrame := by
  have hval : (detect_signals freshFrame).map Prod.fst =
      some { close := [1, 2], rsi := some (rsiSeries [1, 2]),
             returns := some (pctChange100 [1, 2]) } := rfl
  rw [hval]
  intro hcontra
  have h2 := congrArg DataFrame.rsi (Option.some.inj hcontra)
  simp [freshFrame] at h2

/-- C5 amended: `detect_signals` returns a value that depends only on the
`Close` column - two frames with identical close series yield identical
dicts - and its only effect on the input frame is writing the `rsi` and
`returns` columns: the close series survives, and a second call on the
mutated frame returns the identical dict and leaves the frame fixed. -/
theorem detect_signals_pure_in_close (df df' : DataFrame)
    (h : df.close = df'.close) :
    ((detect_signals df).map Prod.snd = (detect_signals df').map Prod.snd) ∧
    (∀ out res, detect_signals df = some (out, res) →
      out.close = df.close ∧ detect_signals out = some (out, res)) := by
  constructor
  · rw [detect_signals, detect_signals, h]
  · intro out res hsome
    rw [detect_signals] at hsome
    cases hgl : df.close.getLast? with
    | none =>
      rw [hgl] at hsome
      exact absurd hsome (by simp)
    | some price =>
      rw [hgl] at hsome
      simp only [Option.some.injEq, Prod.mk.injEq] at hsome
      obtain ⟨hout, hres⟩ := hsome
      subst hout
      subst hres
      refine ⟨rfl, ?_⟩
      simp [detect_signals, hgl]

/-- Witness for the amended C5: two frames sharing the close series `[1, 2]`
under differing `rsi` columns. -/
theorem detect_signals_pure_in_close_witness :
    freshFrame.close = staleFrame.close ∧
      (((detect_signals freshFrame).map Prod.snd =
          (detect_signals staleFrame).map Prod.snd) ∧
      (∀ out res, detect_signals freshFrame = some (out, res) →
        out.close = freshFrame.close ∧ detect_signals out = some (out, res))) :=
  ⟨rfl, detect_signals_pure_in_close freshFrame staleFrame rfl⟩

/-- C9: on a series of at least 2 but fewer than `RSI_PERIOD + 1` points the
Indicator Engine / Signal Classifier raise nothing: `detect_signals`
succeeds, the RSI value is NaN and classifies as `neutral`, and a NaN
`return_percent` classifies as `none`. -/
theorem short_series_handled (df : DataFrame) (h2 : 2 ≤ df.close.length)
    (hshort : df.close.length < RSI_PERIOD + 1) :
    ∃ out res, detect_signals df = some (out, res) ∧
      res.rsi_value = FVal.nan ∧ res.rsi_signal = "neutral" ∧
      (res.return_percent = FVal.nan → res.breakout_signal = "none") := by
  have hne : df.close ≠ [] := by
    intro h
    rw [h] at h2
    simp at h2
  obtain ⟨price, hgl⟩ := Option.isSome_iff_exists.mp (List.getLast?_isSome.mpr hne)
  have hrsi : (rsiSeries df.close).getLast?.getD .nan = FVal.nan := by
    rw [rsiSeries_getLast?_of_ne_nil df.close hne, if_pos ?_]
    · rfl
    · simp only [RSI_PERIOD] at hshort ⊢
      omega
  have hds : detect_signals df = some
      (({ df with
            rsi := some (rsiSeries df.close)
            returns := some (pctChange100 df.close) } : DataFrame),
       ({ price := price
          rsi_value := (rsiSeries df.close).getLast?.getD .nan
          return_percent := (pctChange100 df.close).getLast?.getD .nan
          rsi_signal := rsi_signal ((rsiSeries df.close).getLast?.getD .nan)
          breakout_signal :=
            breakout_signal ((pctChange100 df.close).getLast?.getD .nan) } :
          SignalResult)) := by
    rw [detect_signals, hgl]
  refine ⟨_, _, hds, hrsi, ?_, ?_⟩
  · show rsi_signal ((rsiSeries df.close).getLast?.getD .nan) = "neutral"
    rw [hrsi]
    rfl
  · intro hret
    show breakout_signal ((pctChange100 df.close).getLast?.getD .nan) = "none"
    have hret2 : (pctChange100 df.close).getLast?.getD .nan = FVal.nan := hret
    rw [hret2]
    rfl

/-- Witness for C9 at the two-point frame. -/
theorem short_series_handled_witness :
    (2 ≤ freshFrame.close.length ∧ freshFrame.close.length < RSI_PERIOD + 1) ∧
      (∃ out res, detect_signals freshFrame = some (out, res) ∧
        res.rsi_value = FVal.nan ∧ res.rsi_signal = "neutral" ∧
        (res.return_percent = FVal.nan → res.breakout_signal = "none")) :=
  ⟨⟨by decide, by decide⟩,
    short_series_handled freshFrame (by decide) (by decide)⟩

/-- C10: on any non-flat series of at least `RSI_PERIOD + 1` points the RSI
value is defined and lies in `[0, 100]`; on a strictly increasing series the
window's average loss is `0` and the RSI resolves to `100`. -/
theorem rsi_range_and_monotone_high (close : List ℚ)
    (hlen : RSI_PERIOD + 1 ≤ close.length)
    (_hnf : ¬ ∀ d ∈ deltas close, d = 0) :
    (∃ r : ℚ, (rsiSeries close).getLast? = some (.val r) ∧ 0 ≤ r ∧ r ≤ 100) ∧
    (close.Chain' (· < ·) →
      avgLoss (windowAt close (close.length - 1)) = 0 ∧
      (rsiSeries close).getLast? = some (.val 100)) := by
  have hne : close ≠ [] := by
    intro h
    rw [h] at hlen
    simp [RSI_PERIOD] at hlen
  have hnotlt : ¬ close.length - 1 < RSI_PERIOD := by
    simp only [RSI_PERIOD] at hlen ⊢
    omega
  have hlast := rsiSeries_getLast?_of_ne_nil close hne
  rw [if_neg hnotlt] at hlast
  refine ⟨⟨_, hlast, (rsiFromWindow_bounds _).1, (rsiFromWindow_bounds _).2⟩, ?_⟩
  intro hchain
  have hpos := deltas_pos_of_chain close hchain
  have hwin : ∀ d ∈ windowAt close (close.length - 1), 0 < d := by
    intro d hd
    rw [windowAt] at hd
    exact hpos d (List.mem_of_mem_take (List.mem_of_mem_drop hd))
  have hloss : avgLoss (windowAt close (close.length - 1)) = 0 := by
    rw [avgLoss]
    have hsum :
        ((windowAt close (close.length - 1)).map fun d => max (-d) 0).sum = 0 := by
      apply List.sum_eq_zero
      intro x hx
      obtain ⟨d, hd, rfl⟩ := List.mem_map.mp hx
      exact max_eq_right (neg_nonpos.mpr (hwin d hd).le)
    rw [hsum]
    simp
  refine ⟨hloss, ?_⟩
  rw [hlast, rsiFromWindow, if_pos hloss]

/-- Witness for C10 at a strictly increasing 15-point series. -/
theorem rsi_range_and_monotone_high_witness :
    (RSI_PERIOD + 1 ≤ close15.length ∧ ¬ ∀ d ∈ deltas close15, d = 0) ∧
      ((∃ r : ℚ, (rsiSeries close15).getLast? = some (.val r) ∧ 0 ≤ r ∧ r ≤ 100) ∧
      (close15.Chain' (· < ·) →
        avgLoss (windowAt close15 (close15.length - 1)) = 0 ∧
        (rsiSeries close15).getLast? = some (.val 100))) :=
  ⟨⟨by decide,
      by norm_num [deltas, close15, List.tail_cons, List.zipWith_cons_cons,
        List.forall_mem_cons]⟩,
    rsi_range_and_monotone_high close15 (by decide)
      (by norm_num [deltas, close15, List.tail_cons, List.zipWith_cons_cons,
        List.forall_mem_cons])⟩

/-- C2: a ticker's outcome depends only on that ticker's provider calls;
a raise while processing one ticker produces exactly its one
`Error processing` line; the scan is the total concatenation of per-ticker
blocks, so no ticker's failure aborts it; and the price loop of
`nasdaq.py` likewise yields one outcome per symbol whatever fails. -/
theorem scan_isolates_ticker_failures (env env' : Env) (tickers : List String)
    (t : String)
    (hI : ∀ s, s ≠ t → env.intraday s = env'.intraday s)
    (hC : ∀ s, s ≠ t → env.chain s = env'.chain s) :
    (∀ s, s ≠ t → analyze_ticker env s = analyze_ticker env' s) ∧
    (∀ e, env.intraday t = .error e →
      analyze_ticker env t = [ReportLine.errorProcessing t e]) ∧
    (run_trading_scan env tickers =
      ReportLine.scanHeader :: (tickers.map (analyze_ticker env)).flatten) ∧
    (∀ (fetch : String → Except String ℚ) (syms : List String),
      (Nasdaq.get_latest_prices fetch syms).map Prod.fst = syms) := by
  refine ⟨?_, ?_, rfl, ?_⟩
  · intro s hs
    rw [analyze_ticker, analyze_ticker, hI s hs, hC s hs]
  · intro e he
    rw [analyze_ticker, he]
  · intro fetch syms
    induction syms with
    | nil => rfl
    | cons a l ih =>
      simp only [Nasdaq.get_latest_prices, List.map_cons] at ih ⊢
      rw [ih]

/-- Witness for C2: a provider whose AMD download raises, against one where
it succeeds; all other tickers are unaffected and AMD yields its single
error line. -/
theorem scan_isolates_ticker_failures_witness :
    ((∀ s, s ≠ "AMD" → envFailAMD.intraday s = envAllOk.intraday s) ∧
      (∀ s, s ≠ "AMD" → envFailAMD.chain s = envAllOk.chain s)) ∧
    ((∀ s, s ≠ "AMD" → analyze_ticker envFailAMD s = analyze_ticker envAllOk s) ∧
    (∀ e, envFailAMD.intraday "AMD" = .error e →
      analyze_ticker envFailAMD "AMD" = [ReportLine.errorProcessing "AMD" e]) ∧
    (run_trading_scan envFailAMD TECH_TICKERS =
      ReportLine.scanHeader ::
        (TECH_TICKERS.map (analyze_ticker envFailAMD)).flatten) ∧
    (∀ (fetch : String → Except String ℚ) (syms : List String),
      (Nasdaq.get_latest_prices fetch syms).map Prod.fst = syms)) :=
  ⟨⟨fun s hs => by simp [envFailAMD, envAllOk, hs],
      fun s _ => rfl⟩,
    scan_isolates_ticker_failures envFailAMD envAllOk TECH_TICKERS "AMD"
      (fun s hs => by simp [envFailAMD, envAllOk, hs])
      (fun s _ => rfl)⟩

end OptionsTool
